import Mathlib

/-!
Verification of the github-trending posting pipeline (Rust, `src/main.rs`,
`src/repo.rs`, `src/config.rs`) against its natural-language specification.

Modelling conventions:
* A Rust `String` is modelled as a `List Char` of Unicode scalar values.
  Grapheme-cluster segmentation (`unicode_segmentation`'s `graphemes(true)`)
  is modelled at cluster granularity: each list element stands for one
  grapheme cluster, so `graphemes(true).count()` is `List.length` and
  `graphemes(true).take(n)` is `List.take n`.  UTF-8 byte length of a string
  (Rust `str::len`) is the sum of `Char.utf8Size` over the scalars.
* Rust `usize` arithmetic is modelled on `Nat` with explicit wrapping
  modulo `2 ^ 64` where the source performs unchecked subtraction
  (release-profile semantics; debug builds would panic on overflow).
* The external collaborators (HTTP fetch, AI summarizer, the redis record
  store, the six platform publishers) are modelled as explicit oracles /
  state so that the control flow of the source is preserved exactly.
-/

/-- Rust `String` / `&str`, as a list of Unicode scalar values. -/
abbrev RustStr := List Char

/-- Rust `str::starts_with` on the scalar-value model: `str_starts_with s p`
is true when `p` is an initial segment of `s`. -/
def str_starts_with : RustStr → RustStr → Bool
  | _, [] => true
  | [], _ :: _ => false
  | a :: s, b :: p => a == b && str_starts_with s p

/-- Rust `str::contains` with a string pattern: substring search.  The empty
pattern matches every haystack, as in Rust. -/
def rust_contains (hay pat : RustStr) : Bool :=
  str_starts_with hay pat ||
    match hay with
    | [] => false
    | _ :: t => rust_contains t pat

/-- Rust `str::to_lowercase`, modelled as the per-scalar lowercase map. -/
def to_lowercase (s : RustStr) : RustStr := s.map Char.toLower

/-- Rust `str::len`: the UTF-8 byte length of a string. -/
def byteLen (s : RustStr) : Nat := (s.map Char.utf8Size).sum

/-- One more than the maximal `usize` value (the source targets 64-bit). -/
def USIZE : Nat := 2 ^ 64

/-- Wrapping `usize` subtraction `a - b` (release-profile Rust semantics;
a debug build would panic when `b > a`).  Intended for `a b < USIZE`. -/
def usize_sub (a b : Nat) : Nat := (USIZE + a - b) % USIZE

theorem str_starts_with_iff (s pat : RustStr) :
    str_starts_with s pat = true ↔ ∃ v, s = pat ++ v := by
  induction pat generalizing s with
  | nil => simp [str_starts_with]
  | cons b p ih =>
    cases s with
    | nil => simp [str_starts_with]
    | cons a s' =>
      simp only [str_starts_with, Bool.and_eq_true, beq_iff_eq, ih]
      constructor
      · rintro ⟨rfl, v, rfl⟩
        exact ⟨v, rfl⟩
      · rintro ⟨v, hv⟩
        cases hv
        exact ⟨rfl, v, rfl⟩

theorem rust_contains_iff (hay pat : RustStr) :
    rust_contains hay pat = true ↔ ∃ u v, hay = u ++ (pat ++ v) := by
  induction hay with
  | nil =>
    simp [rust_contains, str_starts_with_iff]
  | cons a t ih =>
    simp only [rust_contains, Bool.or_eq_true, str_starts_with_iff, ih]
    constructor
    · rintro (⟨v, hv⟩ | ⟨u, v, hv⟩)
      · exact ⟨[], v, by simpa using hv⟩
      · exact ⟨a :: u, v, by simp [hv]⟩
    · rintro ⟨u, v, hv⟩
      cases u with
      | nil => exact Or.inl ⟨v, by simpa using hv⟩
      | cons x u' =>
        right
        refine ⟨u', v, ?_⟩
        simpa using congrArg List.tail hv

theorem rust_contains_nil_pat (hay : RustStr) : rust_contains hay [] = true := by
  cases hay <;> rfl

/-- `Repo` from `src/main.rs` (identical to `src/repo.rs`): one trending
repository candidate. -/
structure Repo where
  author : RustStr
  description : RustStr
  name : RustStr
  stars : Nat
deriving DecidableEq

/-- `Repo::get_url` from `src/main.rs`. -/
def Repo.get_url (r : Repo) : RustStr :=
  "https://github.com/".toList ++ r.author ++ "/".toList ++ r.name

/-- `DenylistConfig` from `src/main.rs` / `src/config.rs`. -/
structure DenylistConfig where
  names : List RustStr
  authors : List RustStr
  descriptions : List RustStr
deriving DecidableEq

/-- `DenylistConfig::contains` from `src/main.rs` lines 92-104 (the copy in
`src/config.rs` lines 36-48 is textually identical). -/
def DenylistConfig.contains (self : DenylistConfig) (repo : Repo) : Bool :=
  self.names.contains repo.name
    || self.authors.contains repo.author
    || (self.descriptions.map (fun description =>
          rust_contains (to_lowercase repo.description) (to_lowercase description))).any
        (fun b => b)

/-- `TWEET_LENGTH` from `src/main.rs`. -/
def TWEET_LENGTH : Nat := 280

/-- `TOOT_LENGTH` from `src/main.rs`. -/
def TOOT_LENGTH : Nat := 500

/-- `MASTODON_FIXED_URL_LENGTH` from `src/main.rs`. -/
def MASTODON_FIXED_URL_LENGTH : Nat := 23

/-- `make_repo_title` from `src/main.rs` lines 234-240. -/
def make_repo_title (repo : Repo) : RustStr :=
  if repo.author != repo.name then repo.author ++ " / ".toList ++ repo.name
  else repo.name

/-- `make_post_prefix` from `src/main.rs` lines 242-244. -/
def make_post_prefix (repo : Repo) : RustStr :=
  make_repo_title repo ++ ": ".toList

/-- `make_post_stars` from `src/main.rs` lines 246-248. -/
def make_post_stars (repo : Repo) : RustStr :=
  "⭐️".toList ++ Nat.toDigits 10 repo.stars

/-- `make_post_url` from `src/main.rs` lines 250-252. -/
def make_post_url (repo : Repo) : RustStr :=
  " https://github.com/".toList ++ repo.author ++ "/".toList ++ repo.name

/-- Oracle for the two fallible external calls inside `make_post_description`:
`fetchResult url` is the outcome of `fetch_repo_content(url)` and
`aiResult content` the outcome of `generate_description(content)`; `none`
models a failed call (`Err`). -/
structure SummarizerOracle where
  fetchResult : RustStr → Option RustStr
  aiResult : RustStr → Option RustStr

/-- `make_post_description` from `src/main.rs` lines 292-309 (the same
truncation also appears as `Repo::get_desc` in `src/repo.rs` lines 30-48).
Failed external calls are `unwrap_or_default()`-ed to the empty string; the
description is kept whole when its grapheme count is strictly below
`length_left`, otherwise its first `length_left - 4` grapheme clusters are
kept and `" ..."` is appended.  The subtraction `length_left - 4` is the
unchecked `usize` subtraction of the source. -/
def make_post_description (oracle : SummarizerOracle) (repo : Repo)
    (length_left : Nat) : Except Unit RustStr :=
  let url := repo.get_url
  let repo_content := (oracle.fetchResult url).getD []
  let description := (oracle.aiResult repo_content).getD []
  if description.length < length_left then
    Except.ok description
  else
    Except.ok (description.take (usize_sub length_left 4) ++ " ...".toList)

/-- The `length_left` computation of `make_tweet` (`src/main.rs` line 316):
unchecked `usize` subtraction of the byte lengths of the fixed parts from
the tweet budget. -/
def tweet_length_left (repo : Repo) : Nat :=
  usize_sub TWEET_LENGTH
    (byteLen ( make_post_prefix repo) + byteLen (make_post_stars repo)
      + byteLen (make_post_url repo))

/-- `make_tweet` from `src/main.rs` lines 311-319. -/
def make_tweet (oracle : SummarizerOracle) (repo : Repo) : Except Unit RustStr :=
  let prefix_str := make_post_prefix repo
  let stars_str := make_post_stars repo
  let url_str := make_post_url repo
  let description :=
    (make_post_description oracle repo (tweet_length_left repo)).toOption.getD []
  Except.ok (prefix_str ++ description ++ stars_str ++ url_str)

/-- The `length_left` computation of `make_toot` (`src/main.rs` line 326):
the URL is accounted with the fixed Mastodon link width instead of its real
byte length. -/
def toot_length_left (repo : Repo) : Nat :=
  usize_sub TOOT_LENGTH
    (byteLen ( make_post_prefix repo) + byteLen (make_post_stars repo)
      + MASTODON_FIXED_URL_LENGTH)

/-- `make_toot` from `src/main.rs` lines 321-329. -/
def make_toot (oracle : SummarizerOracle) (repo : Repo) : Except Unit RustStr :=
  let prefix_str := make_post_prefix repo
  let stars_str := make_post_stars repo
  let url_str := make_post_url repo
  let description :=
    (make_post_description oracle repo (toot_length_left repo)).toOption.getD []
  Except.ok (prefix_str ++ description ++ stars_str ++ url_str)

/-- The Record Store collaborator (redis).  An entry is `(key, value,
expiry)`: `set_ex` stores a value with absolute expiry time `now + ttl`
(replacing any previous entry for the key) and `exists_key` reports whether
an unexpired entry for the key is present — the standard redis
`SETEX`/`EXISTS` contract assumed by the source. -/
structure Store where
  entries : List (RustStr × RustStr × Nat)
deriving DecidableEq

/-- Look up the (value, expiry) currently recorded for a key. -/
def Store.lookup (s : Store) (key : RustStr) : Option (RustStr × Nat) :=
  (s.entries.find? (fun e => e.1 == key)).map (fun e => e.2)

/-- redis `SETEX key ttl value` relative to the current time `now`. -/
def Store.set_ex (s : Store) (now : Nat) (key value : RustStr) (ttl : Nat) :
    Store :=
  ⟨(key, value, now + ttl) :: s.entries.filter (fun e => !(e.1 == key))⟩

/-- redis `EXISTS key` at time `now`: true iff the key holds an unexpired
entry. -/
def Store.exists_key (s : Store) (now : Nat) (key : RustStr) : Bool :=
  match s.lookup key with
  | some e => decide (now < e.2)
  | none => false

/-- `mark_posted_repo` from `src/main.rs` lines 590-598: `SETEX` on the key
`"{author}/{name}"` with the decimal Unix timestamp as value and the
configured ttl. -/
def mark_posted_repo (store : Store) (now : Nat) (repo : Repo) (ttl : Nat) :
    Store :=
  store.set_ex now (repo.author ++ "/".toList ++ repo.name)
    (Nat.toDigits 10 now) ttl

/-- `is_repo_posted` from `src/main.rs` lines 359-363: `EXISTS` on the key
`"{author}/{name}"`. -/
def is_repo_posted (store : Store) (now : Nat) (repo : Repo) : Bool :=
  store.exists_key now (repo.author ++ "/".toList ++ repo.name)

/-- The six platforms of `main_loop`, in source order. -/
inductive PlatformId
  | twitter
  | mastodon
  | bluesky
  | zsxq
  | weibo
  | telegram_bot
deriving DecidableEq

/-- The parts of `Config` that steer `main_loop`: the denylist, which of
the six optional platform blocks are present (`Option Unit` models
`Option<XxxConfig>`; the credentials inside are irrelevant to the loop's
control flow), and `interval.post_ttl`. -/
structure LoopConfig where
  denylist : DenylistConfig
  twitter : Option Unit
  mastodon : Option Unit
  bluesky : Option Unit
  zsxq : Option Unit
  weibo : Option Unit
  telegram_bot : Option Unit
  post_ttl : Nat

/-- Whether a platform's configuration block is present. -/
def LoopConfig.enabled (cfg : LoopConfig) : PlatformId → Bool
  | PlatformId.twitter => cfg.twitter.isSome
  | PlatformId.mastodon => cfg.mastodon.isSome
  | PlatformId.bluesky => cfg.bluesky.isSome
  | PlatformId.zsxq => cfg.zsxq.isSome
  | PlatformId.weibo => cfg.weibo.isSome
  | PlatformId.telegram_bot => cfg.telegram_bot.isSome

/-- `format!("{}/{}", repo.author, repo.name)`: the record-store key of a
repository (also used to tag trace events with their repository). -/
def repo_key (repo : Repo) : RustStr := repo.author ++ "/".toList ++ repo.name

/-- Observable operations of one `main_loop` iteration, used to state
ordering / isolation properties.  `storeExistsOk key b` is a successful
already-posted check returning `b`; `storeExistsErr` a failing one;
`publishAttempt p key ok` a publish attempt on platform `p` with outcome
`ok`; `storeMarkOk` / `storeMarkErr` the marker write. -/
inductive Event
  | storeExistsOk (key : RustStr) (result : Bool)
  | storeExistsErr (key : RustStr)
  | publishAttempt (platform : PlatformId) (key : RustStr) (success : Bool)
  | storeMarkOk (key : RustStr)
  | storeMarkErr (key : RustStr)
deriving DecidableEq

/-- The repository key an event refers to. -/
def eventKey : Event → RustStr
  | Event.storeExistsOk key _ => key
  | Event.storeExistsErr key => key
  | Event.publishAttempt _ key _ => key
  | Event.storeMarkOk key => key
  | Event.storeMarkErr key => key

/-- Environment oracle for the fallible external operations of `main_loop`:
whether the record store fails on the existence check / marker write for a
given repository, and whether each platform's publish call succeeds.
(Content composition — `make_tweet` and friends — is `unwrap_or_default`-ed
in the source and can never fail, see `claim_c6_summarizer_recovery`, so it
does not influence the loop's control flow and is elided from the trace.) -/
structure Env where
  storeExistsFails : Repo → Bool
  storeMarkFails : Repo → Bool
  publishOutcome : PlatformId → Repo → Bool

/-- One `if let Some(config) = &config.X { ... if let Err(e) = post(...) {
error!(..) } }` block of `main_loop`: when the block is configured the
publish is attempted and its failure is logged and swallowed — it never
alters control flow. -/
def publisher_attempt (cfgField : Option Unit) (p : PlatformId) (env : Env)
    (repo : Repo) : List Event :=
  match cfgField with
  | some _ => [Event.publishAttempt p (repo_key repo) (env.publishOutcome p repo)]
  | none => []

/-- The six publisher blocks of `main_loop` (`src/main.rs` lines 612-663),
in source order. -/
def attempt_publishers (cfg : LoopConfig) (env : Env) (repo : Repo) :
    List Event :=
  publisher_attempt cfg.twitter PlatformId.twitter env repo
    ++ publisher_attempt cfg.mastodon PlatformId.mastodon env repo
    ++ publisher_attempt cfg.bluesky PlatformId.bluesky env repo
    ++ publisher_attempt cfg.zsxq PlatformId.zsxq env repo
    ++ publisher_attempt cfg.weibo PlatformId.weibo env repo
    ++ publisher_attempt cfg.telegram_bot PlatformId.telegram_bot env repo

/-- The two `anyhow` contexts under which `main_loop` propagates a store
error with `?`. -/
inductive LoopError
  | whileCheckingPosted
  | whileMarkingPosted
deriving DecidableEq

/-- The body of `main_loop`'s `for repo in repos` loop (`src/main.rs` lines
603-674) for one candidate: short-circuit skip when the denylist matches
(no store read), `?`-propagation when the existence check fails, skip when
already posted, otherwise the six publisher blocks followed by the
unconditional `mark_posted_repo` whose failure is `?`-propagated.  Returns
the emitted events, the store after the iteration, and the propagated error
if any. -/
def process_repo (cfg : LoopConfig) (env : Env) (store : Store) (now : Nat)
    (repo : Repo) : List Event × Store × Option LoopError :=
  if cfg.denylist.contains repo then
    ([], store, none)
  else if env.storeExistsFails repo then
    ([Event.storeExistsErr (repo_key repo)], store,
      some LoopError.whileCheckingPosted)
  else if is_repo_posted store now repo then
    ([Event.storeExistsOk (repo_key repo) true], store, none)
  else
    let pub_events := attempt_publishers cfg env repo
    if env.storeMarkFails repo then
      (Event.storeExistsOk (repo_key repo) false
          :: pub_events ++ [Event.storeMarkErr (repo_key repo)],
        store, some LoopError.whileMarkingPosted)
    else
      (Event.storeExistsOk (repo_key repo) false
          :: pub_events ++ [Event.storeMarkOk (repo_key repo)],
        mark_posted_repo store now repo cfg.post_ttl, none)

/-- `main_loop` from `src/main.rs` lines 600-678, given the already-fetched
candidate list: candidates are processed in order; a `?`-propagated store
error ends the loop early (the function returns `Err`), leaving the
remaining candidates unprocessed. -/
def main_loop (cfg : LoopConfig) (env : Env) :
    Store → Nat → List Repo → List Event × Store × Option LoopError
  | store, _, [] => ([], store, none)
  | store, now, repo :: rest =>
    let r := process_repo cfg env store now repo
    match r.2.2 with
    | some e => (r.1, r.2.1, some e)
    | none =>
      let r2 := main_loop cfg env r.2.1 now rest
      (r.1 ++ r2.1, r2.2.1, r2.2.2)

/-- The outer loop of `main` (`src/main.rs` lines 696-706): each cycle runs
`main_loop` on that cycle's fetched candidates; an `Err` cycle result is
logged and the process continues with the next cycle.  Each cycle is given
as `(now, candidates)`. -/
def run_cycles (cfg : LoopConfig) (env : Env) :
    Store → List (Nat × List Repo) → List (List Event) × Store
  | store, [] => ([], store)
  | store, c :: rest =>
    let r := main_loop cfg env store c.1 c.2
    let r2 := run_cycles cfg env r.2.1 rest
    (r.1 :: r2.1, r2.2)

theorem usize_sub_of_le (a b : Nat) (h : b ≤ a) (h2 : a < USIZE) :
    usize_sub a b = a - b := by
  unfold usize_sub
  have h3 : USIZE + a - b = USIZE + (a - b) := by omega
  rw [h3, Nat.add_mod_left]
  exact Nat.mod_eq_of_lt (by omega)

/-- C1: truncation law for the composed description.  For every description
`D` and budget `B` with `4 ≤ B` (and `B` a `usize` value), the description
composed by `make_post_description` has grapheme length at most `B`; when
`D`'s grapheme count is strictly below `B` the result is `D` unchanged;
otherwise it is the first `B - 4` grapheme clusters of `D` followed by
`" ..."`, of grapheme length exactly `B`. -/
theorem claim_c1_truncation (D : RustStr) (B : Nat) (hB : 4 ≤ B)
    (hB2 : B < USIZE) (oracle : SummarizerOracle) (repo : Repo)
    (hai : oracle.aiResult ((oracle.fetchResult repo.get_url).getD [])
      = some D) :
    ∃ r, make_post_description oracle repo B = Except.ok r
      ∧ r.length ≤ B
      ∧ (D.length < B → r = D)
      ∧ (¬ D.length < B →
          r = D.take (B - 4) ++ " ...".toList ∧ r.length = B) := by
  have hsub : usize_sub B 4 = B - 4 := usize_sub_of_le B 4 hB hB2
  by_cases h : D.length < B
  · refine ⟨D, ?_, Nat.le_of_lt h, fun _ => rfl, fun hc => absurd h hc⟩
    simp [make_post_description, hai, h]
  · have hlen : (D.take (B - 4) ++ " ...".toList).length = B := by
      have h4 : (" ...".toList).length = 4 := rfl
      have hD : B ≤ D.length := Nat.le_of_not_lt h
      rw [List.length_append, List.length_take, h4]
      omega
    refine ⟨D.take (B - 4) ++ " ...".toList, ?_, Nat.le_of_eq hlen,
      fun hc => absurd hc h, fun _ => ⟨rfl, hlen⟩⟩
    simp [make_post_description, hai, h, hsub]

/-- Concrete input for the C1 witness. -/
def c1_oracle : SummarizerOracle :=
  ⟨fun _ => none, fun _ => some "0123456789AB".toList⟩

theorem claim_c1_truncation_witness :
    ∃ r, make_post_description c1_oracle ⟨"acme".toList, [], "widget".toList, 7⟩ 10
        = Except.ok r
      ∧ r.length ≤ 10
      ∧ ("0123456789AB".toList.length < 10 → r = "0123456789AB".toList)
      ∧ (¬ "0123456789AB".toList.length < 10 →
          r = "0123456789AB".toList.take (10 - 4) ++ " ...".toList
            ∧ r.length = 10) :=
  claim_c1_truncation "0123456789AB".toList 10 (by decide) (by decide)
    c1_oracle ⟨"acme".toList, [], "widget".toList, 7⟩ rfl

/-- C4: denylist OR semantics.  `DenylistConfig::contains` holds iff the
candidate's name is an element of `names`, or its author an element of
`authors`, or some entry of `descriptions` is a case-insensitive substring
of the candidate's description; with all three rule sets empty no candidate
matches; and a candidate matching only a `descriptions` entry is matched
even when `names` and `authors` are empty. -/
theorem claim_c4_denylist_or (d : DenylistConfig) (repo : Repo) :
    (d.contains repo = true ↔
      repo.name ∈ d.names ∨ repo.author ∈ d.authors ∨
        ∃ desc ∈ d.descriptions, ∃ u v,
          to_lowercase repo.description = u ++ (to_lowercase desc ++ v))
    ∧ DenylistConfig.contains ⟨[], [], []⟩ repo = false
    ∧ (∀ desc, (∃ u v,
          to_lowercase repo.description = u ++ (to_lowercase desc ++ v)) →
        DenylistConfig.contains ⟨[], [], [desc]⟩ repo = true) := by
  refine ⟨?_, rfl, ?_⟩
  · simp [DenylistConfig.contains, rust_contains_iff, or_assoc]
  · intro desc h
    simp [DenylistConfig.contains, rust_contains_iff]
    exact h

theorem claim_c4_denylist_or_witness :
    DenylistConfig.contains ⟨[], [], ["fast widget".toList]⟩
      ⟨"acme".toList, "A Fast Widget".toList, "widget".toList, 42⟩ = true :=
  (claim_c4_denylist_or ⟨[], [], ["fast widget".toList]⟩
      ⟨"acme".toList, "A Fast Widget".toList, "widget".toList, 42⟩).2.2
    "fast widget".toList ⟨"a ".toList, [], by decide⟩

/-- C8: prefix formation.  The post prefix is `"{author} / {name}: "` when
the author differs from the name and `"{name}: "` when they coincide. -/
theorem claim_c8_prefix_formation (repo : Repo) :
    (repo.author ≠ repo.name →
        make_post_prefix repo
          = repo.author ++ " / ".toList ++ repo.name ++ ": ".toList)
    ∧ (repo.author = repo.name →
        make_post_prefix repo = repo.name ++ ": ".toList) := by
  constructor
  · intro h
    simp [ make_post_prefix, make_repo_title, h]
  · intro h
    simp [ make_post_prefix, make_repo_title, h]

theorem claim_c8_prefix_formation_witness :
    make_post_prefix ⟨"acme".toList, [], "widget".toList, 0⟩
        = "acme".toList ++ " / ".toList ++ "widget".toList ++ ": ".toList
      ∧ make_post_prefix ⟨"x".toList, [], "x".toList, 0⟩
        = "x".toList ++ ": ".toList :=
  ⟨(claim_c8_prefix_formation ⟨"acme".toList, [], "widget".toList, 0⟩).1
      (by decide),
    (claim_c8_prefix_formation ⟨"x".toList, [], "x".toList, 0⟩).2 rfl⟩

/-- C10: a `descriptions` rule that is the empty string matches every
candidate (the case-insensitive substring test against the empty pattern
always succeeds), including candidates whose description is empty. -/
theorem claim_c10_empty_description_rule (d : DenylistConfig) (repo : Repo)
    (h : [] ∈ d.descriptions) : d.contains repo = true := by
  simp [DenylistConfig.contains]
  exact Or.inr ⟨[], h, by simp [to_lowercase, rust_contains_nil_pat]⟩

theorem claim_c10_empty_description_rule_witness :
    DenylistConfig.contains ⟨[], [], [[]]⟩
      ⟨"acme".toList, [], "widget".toList, 0⟩ = true :=
  claim_c10_empty_description_rule ⟨[], [], [[]]⟩
    ⟨"acme".toList, [], "widget".toList, 0⟩ (by decide)

/-- A repository whose fixed post overhead (205 + 7 + 221 = 433 bytes)
exceeds the tweet budget of 280. -/
def c5_repo : Repo := ⟨List.replicate 100 'a', [], List.replicate 100 'b', 0⟩

/-- Summarizer oracle whose AI call returns the five-cluster description
`"hello"`. -/
def c5_oracle : SummarizerOracle := ⟨fun _ => some [], fun _ => some "hello".toList⟩

set_option maxRecDepth 40000 in
/-- C5 counterexample: for `c5_repo` the fixed overhead (433) exceeds the
tweet budget (280), yet the remaining budget is not clamped to zero — the
unchecked `usize` subtraction wraps to `2 ^ 64 - 153` — and the post is
composed with the full five-character description `"hello"`, not with an
empty description. -/
theorem claim_c5_counterexample :
    TWEET_LENGTH
        < byteLen ( make_post_prefix c5_repo) + byteLen (make_post_stars c5_repo)
          + byteLen (make_post_url c5_repo)
      ∧ tweet_length_left c5_repo = USIZE - 153
      ∧ tweet_length_left c5_repo ≠ 0
      ∧ make_tweet c5_oracle c5_repo
          = Except.ok ( make_post_prefix c5_repo ++ "hello".toList
              ++ make_post_stars c5_repo ++ make_post_url c5_repo) :=
  ⟨by decide, by decide, by decide, rfl⟩

/-- C5 amended: the remaining-budget computation of the composer is an
unchecked `usize` subtraction.  Whenever the fixed overhead (prefix plus
stars badge plus URL) exceeds the platform's total budget, the subtraction
wraps modulo `2 ^ 64` (release-profile semantics; a debug build would
panic), so the remaining budget becomes the huge value
`2 ^ 64 - (overhead - budget)` — never zero — and the post is composed with
the description effectively untruncated rather than with an empty one. -/
theorem claim_c5_amended (repo : Repo)
    (hov : TWEET_LENGTH
      < byteLen ( make_post_prefix repo) + byteLen (make_post_stars repo)
        + byteLen (make_post_url repo))
    (hsz : byteLen ( make_post_prefix repo) + byteLen (make_post_stars repo)
        + byteLen (make_post_url repo) < USIZE) :
    tweet_length_left repo
        = USIZE - (byteLen ( make_post_prefix repo)
            + byteLen (make_post_stars repo) + byteLen (make_post_url repo)
            - TWEET_LENGTH)
      ∧ tweet_length_left repo ≠ 0
      ∧ ∀ (oracle : SummarizerOracle) (D : RustStr),
          oracle.aiResult ((oracle.fetchResult repo.get_url).getD [])
              = some D →
          D.length < tweet_length_left repo →
          make_tweet oracle repo
            = Except.ok ( make_post_prefix repo ++ D ++ make_post_stars repo
                ++ make_post_url repo) := by
  have h1 : tweet_length_left repo
      = USIZE - (byteLen ( make_post_prefix repo)
          + byteLen (make_post_stars repo) + byteLen (make_post_url repo)
          - TWEET_LENGTH) := by
    unfold tweet_length_left usize_sub
    rw [Nat.mod_eq_of_lt (by omega)]
    omega
  refine ⟨h1, by omega, ?_⟩
  intro oracle D hai hlt
  simp [make_tweet, make_post_description, hai, hlt, Except.toOption]

set_option maxRecDepth 40000 in
theorem claim_c5_amended_witness :
    tweet_length_left c5_repo = USIZE - 153
      ∧ make_tweet c5_oracle c5_repo
        = Except.ok ( make_post_prefix c5_repo ++ "hello".toList
            ++ make_post_stars c5_repo ++ make_post_url c5_repo) :=
  ⟨by decide,
    (claim_c5_amended c5_repo (by decide) (by decide)).2.2 c5_oracle
      "hello".toList rfl (by decide)⟩

/-- C6: summarization failure is recovered locally.  The composition step
always returns `Ok`; a failed content fetch is replaced by empty content;
a failed AI call is replaced by the empty description (so the description
part of the post is empty, or just the `" ..."` marker when the remaining
budget is zero), and the composed tweet still carries the prefix, the stars
badge and the URL.  No summarization error is ever surfaced. -/
theorem claim_c6_summarizer_recovery (oracle : SummarizerOracle) (repo : Repo)
    (length_left : Nat) :
    (∃ d, make_post_description oracle repo length_left = Except.ok d)
    ∧ (oracle.fetchResult repo.get_url = none →
        make_post_description oracle repo length_left
          = make_post_description ⟨fun _ => some [], oracle.aiResult⟩ repo
              length_left)
    ∧ (oracle.aiResult ((oracle.fetchResult repo.get_url).getD []) = none →
        ∃ d, make_post_description oracle repo length_left = Except.ok d
          ∧ (d = [] ∨ d = " ...".toList))
    ∧ (oracle.aiResult ((oracle.fetchResult repo.get_url).getD []) = none →
        ∃ d, make_tweet oracle repo
            = Except.ok ( make_post_prefix repo ++ d ++ make_post_stars repo
                ++ make_post_url repo)
          ∧ (d = [] ∨ d = " ...".toList)) := by
  refine ⟨?_, ?_, ?_, ?_⟩
  · by_cases h : ((oracle.aiResult
        ((oracle.fetchResult repo.get_url).getD [])).getD []).length
        < length_left
    · exact ⟨(oracle.aiResult ((oracle.fetchResult repo.get_url).getD [])).getD [],
        by simp [make_post_description, h]⟩
    · exact ⟨((oracle.aiResult
            ((oracle.fetchResult repo.get_url).getD [])).getD []).take
              (usize_sub length_left 4) ++ " ...".toList,
        by simp [make_post_description, h]⟩
  · intro h
    simp [make_post_description, h]
  · intro h
    by_cases hl : (0 : Nat) < length_left
    · exact ⟨[], by simp [make_post_description, h, hl], Or.inl rfl⟩
    · exact ⟨" ...".toList, by simp [make_post_description, h, hl], Or.inr rfl⟩
  · intro h
    by_cases hl : (0 : Nat) < tweet_length_left repo
    · exact ⟨[], by simp [make_tweet, make_post_description, h, hl,
        Except.toOption], Or.inl rfl⟩
    · exact ⟨" ...".toList, by simp [make_tweet, make_post_description, h, hl,
        Except.toOption], Or.inr rfl⟩

/-- Summarizer oracle on which both external calls fail. -/
def c6_oracle : SummarizerOracle := ⟨fun _ => none, fun _ => none⟩

/-- Concrete candidate used by several witnesses. -/
def c6_repo : Repo := ⟨"acme".toList, [], "widget".toList, 42⟩

theorem claim_c6_summarizer_recovery_witness :
    (∃ d, make_post_description c6_oracle c6_repo 50 = Except.ok d)
      ∧ make_post_description c6_oracle c6_repo 50
        = make_post_description ⟨fun _ => some [], c6_oracle.aiResult⟩ c6_repo 50
      ∧ (∃ d, make_post_description c6_oracle c6_repo 50 = Except.ok d
          ∧ (d = [] ∨ d = " ...".toList))
      ∧ (∃ d, make_tweet c6_oracle c6_repo
            = Except.ok ( make_post_prefix c6_repo ++ d
                ++ make_post_stars c6_repo ++ make_post_url c6_repo)
          ∧ (d = [] ∨ d = " ...".toList)) := by
  have h := claim_c6_summarizer_recovery c6_oracle c6_repo 50
  exact ⟨h.1, h.2.1 rfl, h.2.2.1 rfl, h.2.2.2 rfl⟩

/-- C9: marker layout and round-trip.  `mark_posted_repo` writes the store
key `"{author}/{name}"` with the decimal Unix timestamp as value and expiry
`now + ttl`, and `is_repo_posted` reads existence of exactly that key, so
after marking, the already-posted check returns `true` at every time before
the TTL elapses and `false` from the expiry time on. -/
theorem claim_c9_marker_roundtrip (store : Store) (now ttl : Nat)
    (repo : Repo) :
    (mark_posted_repo store now repo ttl).lookup
        (repo.author ++ "/".toList ++ repo.name)
      = some (Nat.toDigits 10 now, now + ttl)
    ∧ ∀ t, is_repo_posted (mark_posted_repo store now repo ttl) t repo
        = decide (t < now + ttl) := by
  have hl : (mark_posted_repo store now repo ttl).lookup
      (repo.author ++ "/".toList ++ repo.name)
      = some (Nat.toDigits 10 now, now + ttl) := by
    simp [mark_posted_repo, Store.set_ex, Store.lookup, List.find?]
  refine ⟨hl, ?_⟩
  intro t
  have hl2 : (mark_posted_repo store now repo ttl).lookup
      (repo.author ++ '/' :: repo.name)
      = some (Nat.toDigits 10 now, now + ttl) := by simpa using hl
  simp [is_repo_posted, Store.exists_key, hl2]

/-- C2: partial-failure isolation with unconditional marking.  For a
candidate that passes the denylist and already-posted checks (and whose
marker write does not itself fail), one loop iteration attempts every
enabled publisher — whatever each publisher's outcome — and then marks the
repository posted; in particular the attempt trace contains a publish
attempt for every enabled platform even when all publishers fail. -/
theorem claim_c2_partial_failure_isolation (cfg : LoopConfig) (env : Env)
    (store : Store) (now : Nat) (repo : Repo)
    (hdeny : cfg.denylist.contains repo = false)
    (hsf : env.storeExistsFails repo = false)
    (hposted : is_repo_posted store now repo = false)
    (hmf : env.storeMarkFails repo = false) :
    process_repo cfg env store now repo
      = (Event.storeExistsOk (repo_key repo) false
            :: attempt_publishers cfg env repo
            ++ [Event.storeMarkOk (repo_key repo)],
          mark_posted_repo store now repo cfg.post_ttl, none)
    ∧ ∀ p, cfg.enabled p = true →
        Event.publishAttempt p (repo_key repo) (env.publishOutcome p repo)
          ∈ attempt_publishers cfg env repo := by
  constructor
  · simp [process_repo, hdeny, hsf, hposted, hmf]
  · intro p hp
    cases p <;> simp only [LoopConfig.enabled] at hp <;>
      rcases Option.isSome_iff_exists.mp hp with ⟨u, hu⟩ <;>
      simp [attempt_publishers, publisher_attempt, hu]

/-- All six platforms enabled, empty denylist. -/
def c2_cfg : LoopConfig :=
  ⟨⟨[], [], []⟩, some (), some (), some (), some (), some (), some (), 3600⟩

/-- Store never fails; every publisher fails. -/
def c2_env : Env := ⟨fun _ => false, fun _ => false, fun _ _ => false⟩

theorem claim_c2_partial_failure_isolation_witness :
    process_repo c2_cfg c2_env ⟨[]⟩ 1000 c6_repo
      = (Event.storeExistsOk (repo_key c6_repo) false
            :: attempt_publishers c2_cfg c2_env c6_repo
            ++ [Event.storeMarkOk (repo_key c6_repo)],
          mark_posted_repo ⟨[]⟩ 1000 c6_repo c2_cfg.post_ttl, none)
      ∧ ∀ p, c2_cfg.enabled p = true →
          Event.publishAttempt p (repo_key c6_repo)
              (c2_env.publishOutcome p c6_repo)
            ∈ attempt_publishers c2_cfg c2_env c6_repo :=
  claim_c2_partial_failure_isolation c2_cfg c2_env ⟨[]⟩ 1000 c6_repo
    rfl rfl rfl rfl

/-- C7: the denylist check precedes the store read.  When the denylist
matches a candidate, the iteration performs no record-store existence
check, no publish attempt and no store write: its event trace is empty
and the store is unchanged. -/
theorem claim_c7_denylist_before_store (cfg : LoopConfig) (env : Env)
    (store : Store) (now : Nat) (repo : Repo)
    (h : cfg.denylist.contains repo = true) :
    process_repo cfg env store now repo = ([], store, none) := by
  simp [process_repo, h]

/-- Twitter enabled; the denylist names `"widget"`. -/
def c7_cfg : LoopConfig :=
  ⟨⟨["widget".toList], [], []⟩, some (), none, none, none, none, none, 3600⟩

theorem claim_c7_denylist_before_store_witness :
    process_repo c7_cfg c2_env ⟨[]⟩ 1000 c6_repo = ([], ⟨[]⟩, none) :=
  claim_c7_denylist_before_store c7_cfg c2_env ⟨[]⟩ 1000 c6_repo (by decide)

/-- Twitter-only configuration with an empty denylist. -/
def c3_cfg : LoopConfig :=
  ⟨⟨[], [], []⟩, some (), none, none, none, none, none, 3600⟩

/-- The store's existence check fails exactly on the repository named
`"two"`; the marker write never fails; every publish succeeds. -/
def c3_env : Env :=
  ⟨fun r => r.name == "two".toList, fun _ => false, fun _ _ => true⟩

/-- The marker write fails exactly on the repository named `"two"`. -/
def c3_env2 : Env :=
  ⟨fun _ => false, fun r => r.name == "two".toList, fun _ _ => true⟩

def c3_r1 : Repo := ⟨"a".toList, [], "one".toList, 0⟩

def c3_r2 : Repo := ⟨"a".toList, [], "two".toList, 0⟩

def c3_r3 : Repo := ⟨"a".toList, [], "three".toList, 0⟩

/-- C3 counterexample: in a cycle over `[one, two, three]` where the store's
existence check fails only for `two`, the cycle aborts at `two`: candidate
`three` — which is not denylisted and has no store failure of its own — is
never touched (no event of the cycle mentions it and it is not marked),
refuting the claim that the remaining candidates of the same cycle are
still processed.  Candidate `one`, processed before the failure, was marked. -/
theorem claim_c3_counterexample :
    c3_cfg.denylist.contains c3_r3 = false
    ∧ c3_env.storeExistsFails c3_r3 = false
    ∧ (main_loop c3_cfg c3_env ⟨[]⟩ 50 [c3_r1, c3_r2, c3_r3]).2.2
        = some LoopError.whileCheckingPosted
    ∧ (main_loop c3_cfg c3_env ⟨[]⟩ 50 [c3_r1, c3_r2, c3_r3]).1.all
        (fun e => !(eventKey e == repo_key c3_r3)) = true
    ∧ is_repo_posted (main_loop c3_cfg c3_env ⟨[]⟩ 50 [c3_r1, c3_r2, c3_r3]).2.1
        50 c3_r3 = false
    ∧ is_repo_posted (main_loop c3_cfg c3_env ⟨[]⟩ 50 [c3_r1, c3_r2, c3_r3]).2.1
        50 c3_r1 = true := by
  decide

/-- C3 amended: a record-store failure (existence check or marker write)
for a candidate aborts that candidate — it is neither published further nor
marked, so it is retried next cycle — and also aborts the remainder of the
current cycle: `main_loop` returns the error immediately and the
remaining candidates of that cycle are left unprocessed.  The error is
only logged by the outer loop: the process does not terminate, and every
subsequent cycle still runs. -/
theorem claim_c3_store_error_scope (cfg : LoopConfig) (env : Env)
    (store : Store) (now : Nat) (repo : Repo) (rest : List Repo)
    (hdeny : cfg.denylist.contains repo = false) :
    (env.storeExistsFails repo = true →
        main_loop cfg env store now (repo :: rest)
          = ([Event.storeExistsErr (repo_key repo)], store,
              some LoopError.whileCheckingPosted))
    ∧ (env.storeExistsFails repo = false →
        is_repo_posted store now repo = false →
        env.storeMarkFails repo = true →
        main_loop cfg env store now (repo :: rest)
          = (Event.storeExistsOk (repo_key repo) false
                :: attempt_publishers cfg env repo
                ++ [Event.storeMarkErr (repo_key repo)],
              store, some LoopError.whileMarkingPosted))
    ∧ ∀ (cycles : List (Nat × List Repo)) (s : Store),
        (run_cycles cfg env s cycles).1.length = cycles.length := by
  refine ⟨?_, ?_, ?_⟩
  · intro hfail
    simp [main_loop, process_repo, hdeny, hfail]
  · intro h1 h2 h3
    simp [main_loop, process_repo, hdeny, h1, h2, h3]
  · intro cycles
    induction cycles with
    | nil => intro s; rfl
    | cons c rest2 ih =>
      intro s
      simp [run_cycles, ih]

theorem claim_c3_store_error_scope_witness :
    main_loop c3_cfg c3_env ⟨[]⟩ 50 [c3_r2, c3_r3]
      = ([Event.storeExistsErr (repo_key c3_r2)], ⟨[]⟩,
          some LoopError.whileCheckingPosted)
    ∧ main_loop c3_cfg c3_env2 ⟨[]⟩ 50 [c3_r2, c3_r3]
      = (Event.storeExistsOk (repo_key c3_r2) false
            :: attempt_publishers c3_cfg c3_env2 c3_r2
            ++ [Event.storeMarkErr (repo_key c3_r2)],
          ⟨[]⟩, some LoopError.whileMarkingPosted)
    ∧ (run_cycles c3_cfg c3_env ⟨[]⟩ [(50, [c3_r2, c3_r3]), (60, [c3_r3])]).1.length
        = 2 :=
  ⟨(claim_c3_store_error_scope c3_cfg c3_env ⟨[]⟩ 50 c3_r2 [c3_r3] rfl).1 rfl,
    (claim_c3_store_error_scope c3_cfg c3_env2 ⟨[]⟩ 50 c3_r2 [c3_r3] rfl).2.1
      rfl rfl rfl,
    (claim_c3_store_error_scope c3_cfg c3_env ⟨[]⟩ 50 c3_r2 [c3_r3] rfl).2.2
      [(50, [c3_r2, c3_r3]), (60, [c3_r3])] ⟨[]⟩⟩
